import Mathlib

/-!
Shallow embedding of the Website-Monitoring repository:
the probe aggregator (src/lib/monitor/comprehensiveMonitor.ts) and the
recurring-job scheduler (scheduledMonitor, the unnamed source file).
External host facilities (fetch, dns, tls, net, ping, whois, the WHATWG
URL constructor and the JavaScript Date parser) are modelled as explicit
environment data or as documented executable models; everything that is
repository code is translated statement by statement.
-/

deriving instance DecidableEq for Except

namespace WebMon

/-! ## JavaScript string and number helpers -/

/-- Whitespace characters recognised by the JavaScript regex class \s
and by String.prototype.trim (restricted to the ASCII ones). -/
def isJsWhitespace (c : Char) : Bool :=
  c == ' ' || c == '\t' || c == '\n' || c == '\r' || c == '\x0b' || c == '\x0c'

/-- Model of String.prototype.trim. -/
def jsTrim (s : String) : String :=
  String.mk (((s.toList.dropWhile isJsWhitespace).reverse.dropWhile isJsWhitespace).reverse)

/-- List-based lower-casing (kernel-reducible String.toLowerCase model). -/
def lowerStr (s : String) : String := String.mk (s.toList.map Char.toLower)

/-- List-based prefix take (kernel-reducible String.slice(0, n) model). -/
def takeStr (n : Nat) (s : String) : String := String.mk (s.toList.take n)

/-- JavaScript truthiness of an optional string: undefined and the empty
string are falsy. -/
def optStrTruthy : Option String → Bool
  | none => false
  | some s => !(s == "")

/-- JavaScript truthiness of a number (NaN aside): zero is falsy. -/
def numTruthy (n : Int) : Bool := !(n == 0)

def isDigitCh (c : Char) : Bool := '0' ≤ c && c ≤ '9'

def digitVal (c : Char) : Nat := c.toNat - '0'.toNat

def isAlphaCh (c : Char) : Bool :=
  ('a' ≤ c && c ≤ 'z') || ('A' ≤ c && c ≤ 'Z')

/-- Read exactly n decimal digits, returning their value and the rest. -/
def takeDigitsAux : Nat → Nat → List Char → Option (Nat × List Char)
  | 0, acc, cs => some (acc, cs)
  | _ + 1, _, [] => none
  | n + 1, acc, c :: cs =>
    if isDigitCh c then takeDigitsAux n (acc * 10 + digitVal c) cs else none

/-- Case-insensitive character equality (ASCII). -/
def lowEq (a b : Char) : Bool := a.toLower == b.toLower

/-- Does the pattern occur case-insensitively at the head of the text? -/
def ciStartsWith : List Char → List Char → Bool
  | [], _ => true
  | _ :: _, [] => false
  | p :: ps, c :: cs => lowEq p c && ciStartsWith ps cs

/-- Suffix of the text just after the first case-insensitive occurrence of
the pattern, if any. -/
def ciFindAfter (pat : List Char) : List Char → Option (List Char)
  | [] => if pat.isEmpty then some [] else none
  | c :: cs =>
    if ciStartsWith pat (c :: cs) then some ((c :: cs).drop pat.length)
    else ciFindAfter pat cs

/-- Case-insensitive substring test, the model of /pat/i.test(s). -/
def containsCI (s pat : String) : Bool := (ciFindAfter pat.toList s.toList).isSome

/-! ## Calendar arithmetic -/

/-- Days from the Unix epoch to the civil date y-m-d (proleptic Gregorian). -/
def daysFromCivil (y : Int) (m d : Nat) : Int :=
  let y2 : Int := if m ≤ 2 then y - 1 else y
  let era : Int := y2.fdiv 400
  let yoe : Int := y2 - era * 400
  let m2 : Int := if 2 < m then (m : Int) - 3 else (m : Int) + 9
  let doy : Int := (153 * m2 + 2).fdiv 5 + (d : Int) - 1
  let doe : Int := yoe * 365 + yoe.fdiv 4 - yoe.fdiv 100 + doy
  era * 146097 + doe - 719468

/-- Milliseconds since the Unix epoch at UTC midnight of y-m-d. -/
def dayMs (y m d : Nat) : Int := daysFromCivil (y : Int) m d * 86400000

/-- Ceiling division of integers (b positive), the model of
Math.ceil(a / b) on exact integer inputs. -/
def ceilDiv (a b : Int) : Int := -((-a) / b)

/-! ## The host JavaScript date parser

Model of new Date(string) / Date.parse(string) (the two are specified to
be equivalent), restricted to the ISO-8601 forms exercised by this
development: YYYY-MM-DD, optionally followed by THH:MM, :SS, .SSS and a
trailing Z.  The host timezone is taken to be UTC (the scheduler pins
cron to UTC), so the date-time form without Z denotes the same instant
as with Z.  Every other input is modelled as unparseable. -/

def parseFracZ : List Char → Option Nat
  | [] => some 0
  | ['Z'] => some 0
  | '.' :: cs =>
    (match takeDigitsAux 3 0 cs with
     | some (ms, []) => some ms
     | some (ms, ['Z']) => some ms
     | _ => none)
  | _ => none

def parseSecPart : List Char → Option (Nat × Nat)
  | [] => some (0, 0)
  | ['Z'] => some (0, 0)
  | ':' :: cs =>
    (match takeDigitsAux 2 0 cs with
     | some (s, rest) =>
       if s ≤ 59 then (parseFracZ rest).map (fun ms => (s, ms)) else none
     | none => none)
  | _ => none

def jsDateParse (str : String) : Option Int :=
  match takeDigitsAux 4 0 str.toList with
  | some (y, '-' :: r1) =>
    (match takeDigitsAux 2 0 r1 with
     | some (mo, '-' :: r2) =>
       (match takeDigitsAux 2 0 r2 with
        | some (d, rest) =>
          if 1 ≤ mo && mo ≤ 12 && 1 ≤ d && d ≤ 31 then
            match rest with
            | [] => some (dayMs y mo d)
            | 'T' :: tr =>
              (match takeDigitsAux 2 0 tr with
               | some (h, ':' :: mr) =>
                 (match takeDigitsAux 2 0 mr with
                  | some (mi, rest2) =>
                    if h ≤ 23 && mi ≤ 59 then
                      match parseSecPart rest2 with
                      | some (s, ms) =>
                        some (dayMs y mo d + (((h * 3600 + mi * 60 + s) * 1000 + ms : Nat) : Int))
                      | none => none
                    else none
                  | _ => none)
               | _ => none)
            | _ => none
          else none
        | _ => none)
     | _ => none)
  | _ => none

/-! ## The date normalizer (parseDateString in monitorDomainExpiration) -/

/-- Are the last three characters of the list "GMT" (case-insensitive)? -/
def lastThreeIsGMT (cs : List Char) : Bool :=
  match cs.reverse with
  | t :: m :: g :: _ => lowEq t 'T' && lowEq m 'M' && lowEq g 'G'
  | _ => false

/-- Model of s.replace(/\s+GMT$/i, 'Z'): when the string ends in at least
one whitespace character followed by GMT, that tail is replaced by a
single Z; otherwise the string is unchanged. -/
def stripTrailingGMT (s : String) : String :=
  let cs := s.toList
  if lastThreeIsGMT cs then
    let before := cs.take (cs.length - 3)
    let trimmed := (before.reverse.dropWhile isJsWhitespace).reverse
    if trimmed.length < before.length then String.mk (trimmed ++ ['Z']) else s
  else s

/-- The fixed 12-entry month table of parseDateString. -/
def monthTable : String → Option String
  | "jan" => some "01"
  | "feb" => some "02"
  | "mar" => some "03"
  | "apr" => some "04"
  | "may" => some "05"
  | "jun" => some "06"
  | "jul" => some "07"
  | "aug" => some "08"
  | "sep" => some "09"
  | "oct" => some "10"
  | "nov" => some "11"
  | "dec" => some "12"
  | _ => none

/-- Model of String.prototype.padStart(2, '0'). -/
def padStart2 (s : String) : String :=
  if s.length = 0 then "00" else if s.length = 1 then "0" ++ s else s

/-- Attempt the pattern (\d{1,2})[-\/ ]([A-Za-z]{3,9})[-\/ ](\d{4}) with
the day digits fixed, at the head of rest. -/
def ddMonTail (dayDs : List Char) (rest : List Char) : Option (String × String × String) :=
  match rest with
  | s1 :: r1 =>
    if s1 == '-' || s1 == '/' || s1 == ' ' then
      let mon := r1.takeWhile isAlphaCh
      let r2 := r1.drop mon.length
      if 3 ≤ mon.length && mon.length ≤ 9 then
        match r2 with
        | s2 :: r3 =>
          if s2 == '-' || s2 == '/' || s2 == ' ' then
            match takeDigitsAux 4 0 r3 with
            | some _ => some (String.mk dayDs, String.mk mon, String.mk (r3.take 4))
            | none => none
          else none
        | [] => none
      else none
    else none
  | [] => none

/-- Attempt the day-month-name-year pattern at the head of the list,
preferring a two-digit day (greedy \d{1,2} with backtracking). -/
def ddMonAt : List Char → Option (String × String × String)
  | [] => none
  | c1 :: rest =>
    if isDigitCh c1 then
      match rest with
      | c2 :: r2 =>
        if isDigitCh c2 then
          match ddMonTail [c1, c2] r2 with
          | some r => some r
          | none => ddMonTail [c1] rest
        else ddMonTail [c1] rest
      | [] => none
    else none

/-- Leftmost match of the day-month-name-year pattern anywhere in the list. -/
def ddMonScan : List Char → Option (String × String × String)
  | [] => none
  | c :: cs =>
    match ddMonAt (c :: cs) with
    | some r => some r
    | none => ddMonScan cs

def ddMonMatch (s : String) : Option (String × String × String) := ddMonScan s.toList

/-- The date normalizer of monitorDomainExpiration: reject the empty
string, trim, normalize a trailing GMT token, then try the general host
date parse, the day-month-name-year pattern, and a last-resort
Date.parse, in that order, first success winning. -/
def parseDateString (s0 : String) : Option Int :=
  if s0 = "" then none
  else
    let s := stripTrailingGMT (jsTrim s0)
    match jsDateParse s with
    | some d => some d
    | none =>
      let fromPattern : Option Int :=
        match ddMonMatch s with
        | some (day, monName, year) =>
          (match monthTable (lowerStr (takeStr 3 monName)) with
           | some mm => jsDateParse (year ++ "-" ++ mm ++ "-" ++ padStart2 day ++ "T00:00:00Z")
           | none => none)
        | none => none
      match fromPattern with
      | some d => some d
      | none => jsDateParse s

/-! ## The report data model (interface MonitoringResult) -/

inductive WebStatus
  | online
  | offline
  | error
deriving DecidableEq

structure WebsiteMonitoring where
  status : WebStatus
  statusCode : Option Nat
  error : Option String
deriving DecidableEq

inductive RTStatus
  | good
  | warning
  | critical
deriving DecidableEq

structure ResponseTime where
  value : Nat
  status : RTStatus
deriving DecidableEq

inductive DnsStatus
  | resolved
  | failed
  | error
deriving DecidableEq

structure DnsRecords where
  A : List String
  MX : List String
  TXT : List String
  NS : List String
deriving DecidableEq

structure DnsMonitoring where
  status : DnsStatus
  records : Option DnsRecords
  error : Option String
deriving DecidableEq

inductive SslStatus
  | valid
  | invalid
  | expired
  | expiring_soon
  | error
deriving DecidableEq

structure Certificate where
  issuer : String
  validFrom : Int
  validTo : Int
  daysUntilExpiry : Int
deriving DecidableEq

structure SslMonitoring where
  status : SslStatus
  certificate : Option Certificate
  error : Option String
deriving DecidableEq

inductive DomainStatus
  | valid
  | expired
  | expiring_soon
  | error
deriving DecidableEq

structure DomainExpiration where
  status : DomainStatus
  expiryDate : Option Int
  daysUntilExpiry : Option Int
  error : Option String
deriving DecidableEq

inductive PortStatus
  | opened
  | closed
  | timeout
  | error
deriving DecidableEq

structure PortEntry where
  status : PortStatus
  responseTime : Option Nat
deriving DecidableEq

inductive PingStatus
  | success
  | failed
  | error
deriving DecidableEq

structure PingMonitoring where
  status : PingStatus
  responseTime : Option Rat
  error : Option String
deriving DecidableEq

inductive KeywordStatus
  | found
  | not_found
  | error
deriving DecidableEq

structure KeywordMonitoring where
  status : KeywordStatus
  keyword : Option String
  occurrences : Option Nat
  error : Option String
deriving DecidableEq

structure MonitoringResult where
  url : String
  timestamp : Int
  websiteMonitoring : WebsiteMonitoring
  responseTime : ResponseTime
  dnsMonitoring : DnsMonitoring
  sslMonitoring : SslMonitoring
  domainExpiration : DomainExpiration
  portMonitoring : List (Nat × PortEntry)
  pingMonitoring : PingMonitoring
  keywordMonitoring : Option KeywordMonitoring
deriving DecidableEq

/-! ## The host URL constructor

Model of new URL(url), restricted to the shape scheme://host[:port][/rest]
with an alphabetic scheme; every other input throws (modelled as none),
matching the TypeError "Invalid URL" of the host constructor. -/

def natOfDigits (ds : List Char) : Nat := ds.foldl (fun a c => a * 10 + digitVal c) 0

/-- Case-sensitive prefix test. -/
def startsWithCh : List Char → List Char → Bool
  | [], _ => true
  | _ :: _, [] => false
  | p :: ps, c :: cs => p == c && startsWithCh ps cs

/-- Split at the first occurrence of the pattern: text before and after. -/
def splitFirst (pat : List Char) : List Char → Option (List Char × List Char)
  | [] => none
  | c :: cs =>
    if startsWithCh pat (c :: cs) then some ([], (c :: cs).drop pat.length)
    else
      match splitFirst pat cs with
      | some (a, b) => some (c :: a, b)
      | none => none

structure URLParts where
  hostname : String
  port : Option Nat
deriving DecidableEq

def parseURL (url : String) : Option URLParts :=
  match splitFirst "://".toList url.toList with
  | none => none
  | some (scheme, rest) =>
    if scheme.isEmpty || !(scheme.all isAlphaCh) then none
    else
      let authority := rest.takeWhile (fun c => !(c == '/'))
      match splitFirst [':'] authority with
      | some (host, portDs) =>
        if host.isEmpty then none
        else if portDs.isEmpty then some ⟨String.mk host, none⟩
        else if portDs.all isDigitCh then some ⟨String.mk host, some (natOfDigits portDs)⟩
        else none
      | none => if authority.isEmpty then none else some ⟨String.mk authority, none⟩

/-! ## The probe environment

One aggregator run interacts with the outside world through these
oracles (section 6 external interfaces); an Except.error value models a
rejected promise or thrown host exception at that call site. -/

structure FetchResponse where
  status : Nat
  statusText : String
  body : String
deriving DecidableEq

/-- node-fetch Response.ok: status in the 2xx range. -/
def respOk (r : FetchResponse) : Bool := 200 ≤ r.status && r.status < 300

structure PeerCert where
  issuerCN : Option String
  validFromMs : Int
  validToMs : Int
deriving DecidableEq

structure RdapEvent where
  eventAction : Option String
  eventDate : Option String
deriving DecidableEq

structure RdapJson where
  events : Option (List RdapEvent)
deriving DecidableEq

inductive RdapOutcome
  | fetchFail (e : String)
  | response (ok : Bool) (json : Option RdapJson)
deriving DecidableEq

inductive PortOutcome
  | connected (ms : Nat)
  | refused
  | timedOut
  | threw
deriving DecidableEq

structure ProbeEnv where
  now : Int
  fetchResult : Except String FetchResponse
  fetchSpanMs : Nat
  dnsA : Except String (List String)
  dnsMX : Except String (List (Nat × String))
  dnsTXT : Except String (List (List String))
  dnsNS : Except String (List String)
  sslCert : Except String PeerCert
  pslDomain : Option String
  rdap : String → RdapOutcome
  whoisExec : String → Except String (String × String)
  portOutcome : Nat → PortOutcome
  pingOut : Except String String
  keywordFetch : Except String FetchResponse

/-! ## Individual probes (ComprehensiveMonitor methods) -/

def monitorWebsiteStatus (env : ProbeEnv) : WebsiteMonitoring × ResponseTime :=
  match env.fetchResult with
  | .ok resp =>
    ({ status := if respOk resp then .online else .offline
     , statusCode := some resp.status
     , error := none },
     { value := env.fetchSpanMs
     , status :=
         if env.fetchSpanMs < 1000 then .good
         else if env.fetchSpanMs < 3000 then .warning
         else .critical })
  | .error e =>
    ({ status := .error, statusCode := none, error := some e },
     { value := 0, status := .critical })

def recoverList {α : Type} (e : Except String (List α)) : List α :=
  match e with
  | .ok v => v
  | .error _ => []

def monitorDNS (url : String) (env : ProbeEnv) : DnsMonitoring :=
  match parseURL url with
  | none => { status := .error, records := none, error := some "Invalid URL" }
  | some _ =>
    { status := .resolved
    , records := some
        { A := recoverList env.dnsA
        , MX := (recoverList env.dnsMX).map (fun r => r.2)
        , TXT := (recoverList env.dnsTXT).flatten
        , NS := recoverList env.dnsNS }
    , error := none }

def monitorSSL (url : String) (env : ProbeEnv) : SslMonitoring :=
  match parseURL url with
  | none => { status := .error, certificate := none, error := some "Invalid URL" }
  | some _ =>
    match env.sslCert with
    | .error e => { status := .error, certificate := none, error := some e }
    | .ok cert =>
      let daysUntilExpiry := ceilDiv (cert.validToMs - env.now) 86400000
      { status :=
          if 0 < daysUntilExpiry then
            (if 30 < daysUntilExpiry then .valid else .expiring_soon)
          else .expired
      , certificate := some
          { issuer :=
              match cert.issuerCN with
              | some cn => if cn == "" then "Unknown" else cn
              | none => "Unknown"
          , validFrom := cert.validFromMs
          , validTo := cert.validToMs
          , daysUntilExpiry := daysUntilExpiry }
      , error := none }

/-! ## Domain expiration (monitorDomainExpiration) -/

def splitOnChar (sep : Char) : List Char → List (List Char)
  | [] => [[]]
  | c :: cs =>
    let r := splitOnChar sep cs
    if c == sep then [] :: r
    else
      match r with
      | h :: t => (c :: h) :: t
      | [] => [[c]]

/-- The last-two-labels fallback for the registrable domain. -/
def lastTwoLabels (hostname : String) : String :=
  let parts := (splitOnChar '.' hostname.toList).map String.mk
  String.intercalate "." (parts.drop (parts.length - 2))

/-- The expiry candidate extracted from a structured-registry (RDAP)
response: the first event whose action contains "expir"
case-insensitively, when its date is truthy. -/
def rdapExpiry : RdapOutcome → Option String
  | .fetchFail _ => none
  | .response ok json =>
    if ok then
      match json with
      | some j =>
        (match j.events with
         | some evs =>
           (match evs.find? (fun e =>
               match e.eventAction with
               | some a => containsCI a "expir"
               | none => false) with
            | some ev =>
              (match ev.eventDate with
               | some d => if d == "" then none else some (jsTrim d)
               | none => none)
            | none => none)
         | none => none)
      | none => none
    else none

/-- The ordered labelled patterns searched in the whois text. -/
def whoisLabels : List String :=
  [ "Registry Expiry Date:"
  , "Registrar Registration Expiration Date:"
  , "Expiration Date:"
  , "Expiry Date:"
  , "paid-till:"
  , "paid_till:"
  , "Expires On:"
  , "expires:"
  , "Renewal Date:"
  , "domain_datebilled_until:"
  , "Registry Expiry:" ]

/-- Model of whoisText.match(/label\s*(.+)/i): the trimmed rest of line
after the first case-insensitive occurrence of the label. -/
def labeledCapture (text label : String) : Option String :=
  match ciFindAfter label.toList text.toList with
  | none => none
  | some rest =>
    let rest2 := rest.dropWhile isJsWhitespace
    let cap := rest2.takeWhile (fun c => !(c == '\n' || c == '\r'))
    if cap.isEmpty then none else some (jsTrim (String.mk cap))

def firstLabeled (text : String) : List String → Option String
  | [] => none
  | l :: ls =>
    match labeledCapture text l with
    | some v => some v
    | none => firstLabeled text ls

def splitCRLFAux : List Char → List Char → List String
  | acc, [] => [String.mk acc.reverse]
  | acc, '\n' :: cs =>
    (match acc with
     | '\r' :: acc2 => String.mk acc2.reverse
     | _ => String.mk acc.reverse) :: splitCRLFAux [] cs
  | acc, c :: cs => splitCRLFAux (c :: acc) cs

/-- Model of text.split(/\r?\n/). -/
def splitCRLF (s : String) : List String := splitCRLFAux [] s.toList

def afterFirstColon (cs : List Char) : List Char :=
  match splitFirst [':'] cs with
  | some (_, rest) => rest
  | none => cs

/-- The loose whois scan: first line containing "expir" case-insensitively;
text after the first colon when one exists, the whole line otherwise. -/
def looseScan (text : String) : Option String :=
  match (splitCRLF text).find? (fun line => containsCI line "expir") with
  | none => none
  | some line =>
    if line.toList.contains ':' then some (jsTrim (String.mk (afterFirstColon line.toList)))
    else some (jsTrim line)

/-- Classification and assembly of the domain-expiration entry from the
discovered expiry string (step 4 of monitorDomainExpiration). -/
def domainFinish (now : Int) (expiryStr : String) : DomainExpiration :=
  match parseDateString expiryStr with
  | none =>
    { status := .error, expiryDate := none, daysUntilExpiry := none
    , error := some ("Found expiry string but could not parse it: \"" ++ expiryStr ++ "\"") }
  | some ms =>
    let daysUntilExpiry := ceilDiv (ms - now) 86400000
    { status :=
        if 0 < daysUntilExpiry then
          (if 30 < daysUntilExpiry then .valid else .expiring_soon)
        else .expired
    , expiryDate := some ms
    , daysUntilExpiry := some daysUntilExpiry
    , error := none }

def monitorDomainExpiration (url : String) (env : ProbeEnv) : DomainExpiration :=
  match parseURL url with
  | none => { status := .error, expiryDate := none, daysUntilExpiry := none, error := some "Invalid URL" }
  | some u =>
    let domain :=
      match env.pslDomain with
      | some d => d
      | none => lastTwoLabels u.hostname
    let fromRdap := rdapExpiry (env.rdap domain)
    if optStrTruthy fromRdap then domainFinish env.now (fromRdap.getD "")
    else
      match env.whoisExec domain with
      | .error e => { status := .error, expiryDate := none, daysUntilExpiry := none, error := some e }
      | .ok (out, errOut) =>
        let whoisText := out ++ "\n" ++ errOut
        let fromPatterns := firstLabeled whoisText whoisLabels
        let expiryStr := if optStrTruthy fromPatterns then fromPatterns else looseScan whoisText
        if optStrTruthy expiryStr then domainFinish env.now (expiryStr.getD "")
        else
          { status := .error, expiryDate := none, daysUntilExpiry := none
          , error := some ("Could not find expiry date in RDAP or WHOIS output; sample WHOIS start: "
              ++ String.mk (whoisText.toList.take 800)) }

/-! ## Port scan, ping, keyword -/

def scanPorts : List Nat := [21, 22, 23, 25, 53, 80, 110, 143, 443, 993, 995, 3306, 5432, 8080]

def portEntryOf : PortOutcome → PortEntry
  | .connected ms => { status := .opened, responseTime := some ms }
  | .refused => { status := .closed, responseTime := none }
  | .timedOut => { status := .timeout, responseTime := none }
  | .threw => { status := .error, responseTime := none }

/-- The port scan.  The hostname is derived from the target URL outside
any try/catch, so an unparseable target rejects the whole call (the
per-port try/catch inside the loop only guards the socket attempt). -/
def monitorPorts (url : String) (env : ProbeEnv) : Except String (List (Nat × PortEntry)) :=
  match parseURL url with
  | none => .error "Invalid URL"
  | some _ => .ok (scanPorts.map (fun p => (p, portEntryOf (env.portOutcome p))))

/-- Match of /time=(\d+\.\d+)/ at the head of the list: integer and
fractional digit groups. -/
def pingTimeAt (cs : List Char) : Option (List Char × List Char) :=
  if startsWithCh "time=".toList cs then
    let rest := cs.drop 5
    let ints := rest.takeWhile isDigitCh
    let r2 := rest.drop ints.length
    if ints.isEmpty then none
    else
      match r2 with
      | '.' :: r3 =>
        let fr := r3.takeWhile isDigitCh
        if fr.isEmpty then none else some (ints, fr)
      | _ => none
  else none

def pingTimeScan : List Char → Option (List Char × List Char)
  | [] => none
  | c :: cs =>
    match pingTimeAt (c :: cs) with
    | some r => some r
    | none => pingTimeScan cs

/-- Model of parseFloat on the matched digit groups. -/
def parseFloatDigits (ints fr : List Char) : Rat :=
  (natOfDigits ints : Rat) + (natOfDigits fr : Rat) / ((10 : Rat) ^ fr.length)

def monitorPing (url : String) (env : ProbeEnv) : PingMonitoring :=
  match parseURL url with
  | none => { status := .error, responseTime := none, error := some "Invalid URL" }
  | some _ =>
    match env.pingOut with
    | .error e => { status := .error, responseTime := none, error := some e }
    | .ok out =>
      match pingTimeScan out.toList with
      | some (ints, fr) =>
        { status := .success, responseTime := some (parseFloatDigits ints fr), error := none }
      | none => { status := .failed, responseTime := none, error := none }

/-- Model of the host regex engine for patterns built from literal
characters and the dot wildcard, flag i: does the pattern match at the
head of the text (each atom consumes exactly one character)? -/
def reMatchAt : List Char → List Char → Bool
  | [], _ => true
  | _ :: _, [] => false
  | p :: ps, c :: cs => (p == '.' || lowEq p c) && reMatchAt ps cs

/-- Count of non-overlapping matches, scanning left to right (flag g):
after a match the scan resumes past the matched text, tracked by the
skip counter (the remaining lastIndex advance). -/
def reCountFrom (pat : List Char) : List Char → Nat → Nat
  | [], _ => 0
  | c :: cs, 0 =>
    if reMatchAt pat (c :: cs) then 1 + reCountFrom pat cs (pat.length - 1)
    else reCountFrom pat cs 0
  | _ :: cs, k + 1 => reCountFrom pat cs k

/-- Model of (body.match(new RegExp(pat, "gi")) or []).length for
patterns in the modelled fragment. -/
def jsRegexCountGI (pat body : String) : Nat :=
  if pat.isEmpty then body.length + 1 else reCountFrom pat.toList body.toList 0

def monitorKeyword (url keyword : String) (env : ProbeEnv) : KeywordMonitoring :=
  match env.keywordFetch with
  | .error e => { status := .error, keyword := none, occurrences := none, error := some e }
  | .ok resp =>
    if !(respOk resp) then
      { status := .error, keyword := none, occurrences := none
      , error := some ("HTTP " ++ toString resp.status ++ ": " ++ resp.statusText) }
    else
      let occurrences := jsRegexCountGI keyword resp.body
      { status := if 0 < occurrences then .found else .not_found
      , keyword := some keyword
      , occurrences := some occurrences
      , error := none }

/-! ## The probe aggregator (monitorWebsite) -/

/-- One aggregator run: the probes execute in source order, each catching
its own faults, except that the port scan's URL parse happens outside its
try/catch; an uncaught throw there rejects the whole invocation. -/
def monitorWebsite (url : String) (keyword : Option String) (env : ProbeEnv) :
    Except String MonitoringResult :=
  let wmrt := monitorWebsiteStatus env
  let dnsR := monitorDNS url env
  let sslR := monitorSSL url env
  let domR := monitorDomainExpiration url env
  match monitorPorts url env with
  | .error e => .error e
  | .ok ports =>
    let pingR := monitorPing url env
    let kw :=
      match keyword with
      | some k => if k == "" then none else some (monitorKeyword url k env)
      | none => none
    .ok
      { url := url
      , timestamp := env.now
      , websiteMonitoring := wmrt.1
      , responseTime := wmrt.2
      , dnsMonitoring := dnsR
      , sslMonitoring := sslR
      , domainExpiration := domR
      , portMonitoring := ports
      , pingMonitoring := pingR
      , keywordMonitoring := kw }

/-! ## The scheduler (ScheduledMonitor) -/

structure EmailNotifications where
  enabled : Bool
  recipients : List String
deriving DecidableEq

structure AlertThresholds where
  responseTime : Int
  sslExpiryDays : Int
  domainExpiryDays : Int
deriving DecidableEq

structure MonitoringConfig where
  url : String
  keyword : Option String
  schedule : String
  emailNotifications : Option EmailNotifications
  alertThresholds : Option AlertThresholds
deriving DecidableEq

def webStatusText : WebStatus → String
  | .online => "online"
  | .offline => "offline"
  | .error => "error"

/-- The alert list built by ScheduledMonitor.checkAlerts, in source
order.  Numeric guards follow JavaScript truthiness: a threshold of 0 and
a days-to-expiry of 0 are falsy and skip their rule. -/
def checkAlertsList (config : MonitoringConfig) (result : MonitoringResult) : List String :=
  let alerts : List String := []
  let alerts := alerts ++
    (match config.alertThresholds with
     | some th =>
       if numTruthy th.responseTime && decide ((result.responseTime.value : Int) > th.responseTime) then
         ["Response time " ++ toString result.responseTime.value ++ "ms exceeds threshold of "
           ++ toString th.responseTime ++ "ms"]
       else []
     | none => [])
  let alerts := alerts ++
    (match config.alertThresholds, result.sslMonitoring.certificate with
     | some th, some cert =>
       if numTruthy th.sslExpiryDays && numTruthy cert.daysUntilExpiry
           && decide (cert.daysUntilExpiry ≤ th.sslExpiryDays) then
         ["SSL certificate expires in " ++ toString cert.daysUntilExpiry ++ " days"]
       else []
     | _, _ => [])
  let alerts := alerts ++
    (match config.alertThresholds, result.domainExpiration.daysUntilExpiry with
     | some th, some d =>
       if numTruthy th.domainExpiryDays && numTruthy d && decide (d ≤ th.domainExpiryDays) then
         ["Domain expires in " ++ toString d ++ " days"]
       else []
     | _, _ => [])
  let alerts := alerts ++
    (if result.websiteMonitoring.status = .online then []
     else ["Website is " ++ webStatusText result.websiteMonitoring.status])
  let alerts := alerts ++
    (if result.sslMonitoring.status = .expired then ["SSL certificate has expired"] else [])
  let alerts := alerts ++
    (if result.domainExpiration.status = .expired then ["Domain has expired"] else [])
  alerts

inductive AlertAction
  | noAction
  | dispatched (alerts : List String)
deriving DecidableEq

/-- The whole checkAlerts method: return early unless email notifications
are enabled; otherwise build the alert list and request a dispatch
exactly when it is non-empty (sendAlertEmail failures are swallowed). -/
def checkAlerts (config : MonitoringConfig) (result : MonitoringResult) : AlertAction :=
  match config.emailNotifications with
  | none => .noAction
  | some en =>
    if !en.enabled then .noAction
    else
      let alerts := checkAlertsList config result
      if alerts.length > 0 then .dispatched alerts else .noAction

structure MonitoringJob where
  id : String
  config : MonitoringConfig
  lastRun : Option Int
  lastResult : Option MonitoringResult
  isActive : Bool
deriving DecidableEq

/-- The environment of one job execution: the clock and the outcome of
the aggregator call. -/
structure RunEnv where
  now : Int
  monitorOutcome : Except String MonitoringResult

inductive RunJobResult
  | completed (r : MonitoringResult) (action : AlertAction)
  | threw (e : String)
deriving DecidableEq

/-- ScheduledMonitor.runJob: on aggregator success assign lastRun and
lastResult, then evaluate alerts; on aggregator failure leave the job
object untouched and rethrow. -/
def runJob (job : MonitoringJob) (env : RunEnv) : MonitoringJob × RunJobResult :=
  match env.monitorOutcome with
  | .error e => (job, .threw e)
  | .ok result =>
    let job2 := { job with lastRun := some env.now, lastResult := some result }
    (job2, .completed result (checkAlerts job.config result))

/-! ## The job registry

The jobs Map holds references to mutable job objects, and every
cron.schedule call registers a trigger whose closure captures one such
object.  The heap of job objects is modelled as a store of indices; a
trigger is the index its closure captured.  Nothing in the source ever
destroys a cron task: a trigger stops firing work only when its captured
job object has isActive = false. -/

structure RegistryState where
  store : List MonitoringJob
  jobsMap : List (String × Nat)
  triggers : List Nat
deriving DecidableEq

def assocGet (m : List (String × Nat)) (k : String) : Option Nat :=
  match m.find? (fun p => p.1 == k) with
  | some p => some p.2
  | none => none

/-- Map.set: replace in place when the key exists, append otherwise. -/
def assocSet (m : List (String × Nat)) (k : String) (v : Nat) : List (String × Nat) :=
  match m with
  | [] => [(k, v)]
  | p :: ps => if p.1 == k then (k, v) :: ps else p :: assocSet ps k v

def assocDel (m : List (String × Nat)) (k : String) : List (String × Nat) :=
  m.filter (fun p => !(p.1 == k))

def emptyRegistry : RegistryState := ⟨[], [], []⟩

/-- ScheduledMonitor.addJob: construct a fresh active job object, put it
in the map under the id (overwriting any previous reference), and
register a new recurring trigger over it.  A job object already under
that id is neither deactivated nor deregistered. -/
def addJob (st : RegistryState) (id : String) (config : MonitoringConfig) : RegistryState :=
  let idx := st.store.length
  { store := st.store ++
      [{ id := id, config := config, lastRun := none, lastResult := none, isActive := true }]
  , jobsMap := assocSet st.jobsMap id idx
  , triggers := st.triggers ++ [idx] }

def setInactive (store : List MonitoringJob) (idx : Nat) : List MonitoringJob :=
  match store[idx]? with
  | some j => store.set idx { j with isActive := false }
  | none => store

/-- ScheduledMonitor.removeJob: deactivate the mapped job object and drop
it from the map; a no-op for an absent id. -/
def removeJob (st : RegistryState) (id : String) : RegistryState :=
  match assocGet st.jobsMap id with
  | some idx =>
    { store := setInactive st.store idx
    , jobsMap := assocDel st.jobsMap id
    , triggers := st.triggers }
  | none => st

/-- ScheduledMonitor.updateJobConfig: deactivate the current job object,
then addJob again under the same id. -/
def updateJobConfig (st : RegistryState) (id : String) (config : MonitoringConfig) : RegistryState :=
  match assocGet st.jobsMap id with
  | some idx => addJob { st with store := setInactive st.store idx } id config
  | none => st

def storeActive (reg : RegistryState) (r : Nat) : Bool :=
  match reg.store[r]? with
  | some j => j.isActive
  | none => false

/-- Number of registered triggers whose captured job object is active
under the given id: the recurring triggers that will actually run work
for that id. -/
def liveTriggers (st : RegistryState) (id : String) : Nat :=
  (st.triggers.filter (fun r =>
    match st.store[r]? with
    | some j => j.id == id && j.isActive
    | none => false)).length

/-! ## Scheduler execution interleaving

The cron callback is async: it starts runJob and yields at its awaits, so
further triggers may fire while an execution is in flight.  The source
guards the callback only with the captured object's isActive flag; it
keeps no in-flight flag.  A state therefore carries the multiset of
executions started and not yet completed, a tick event starts a new
execution whenever the trigger's job object is active, and a completion
event finishes one execution, applying runJob's state update and counting
its alert dispatch. -/

structure SchedState where
  reg : RegistryState
  inFlight : List Nat
  dispatchCount : Nat
deriving DecidableEq

inductive SchedEvent
  | tick (r : Nat)
  | complete (k : Nat) (env : RunEnv)

def schedStep (st : SchedState) : SchedEvent → SchedState
  | .tick r =>
    if st.reg.triggers.contains r && storeActive st.reg r then
      { st with inFlight := st.inFlight ++ [r] }
    else st
  | .complete k env =>
    match st.inFlight[k]? with
    | none => st
    | some r =>
      let inFlight2 := st.inFlight.eraseIdx k
      match st.reg.store[r]? with
      | none => { st with inFlight := inFlight2 }
      | some job =>
        let out := runJob job env
        let disp :=
          match out.2 with
          | .completed _ (.dispatched _) => 1
          | _ => 0
        { reg := { st.reg with store := st.reg.store.set r out.1 }
        , inFlight := inFlight2
        , dispatchCount := st.dispatchCount + disp }

def runTrace (st : SchedState) (evs : List SchedEvent) : SchedState :=
  evs.foldl schedStep st

/-! ## Spec-side comparison definitions -/

/-- Case-insensitive literal match at the head of the text. -/
def litMatchAt : List Char → List Char → Bool
  | [], _ => true
  | _ :: _, [] => false
  | p :: ps, c :: cs => lowEq p c && litMatchAt ps cs

/-- Non-overlapping left-to-right count of literal matches, with the
same skip-counter scan as the code's regex model. -/
def litCountFrom (pat : List Char) : List Char → Nat → Nat
  | [], _ => 0
  | c :: cs, 0 =>
    if litMatchAt pat (c :: cs) then 1 + litCountFrom pat cs (pat.length - 1)
    else litCountFrom pat cs 0
  | _ :: cs, k + 1 => litCountFrom pat cs k

/-- Written to the spec's words for comparison with the code's regex
count: the case-insensitive count of (non-overlapping, left-to-right)
occurrences of the keyword string in the body text. -/
def specOccurrenceCountCI (pat body : String) : Nat :=
  if pat.isEmpty then body.length + 1 else litCountFrom pat.toList body.toList 0

/-! ## Alert rule predicates (the six checkAlerts rules, separated) -/

def latencyAlertFires (config : MonitoringConfig) (result : MonitoringResult) : Bool :=
  match config.alertThresholds with
  | some th => numTruthy th.responseTime && decide ((result.responseTime.value : Int) > th.responseTime)
  | none => false

def latencyAlertText (config : MonitoringConfig) (result : MonitoringResult) : List String :=
  match config.alertThresholds with
  | some th =>
    ["Response time " ++ toString result.responseTime.value ++ "ms exceeds threshold of "
      ++ toString th.responseTime ++ "ms"]
  | none => []

def sslDaysAlertFires (config : MonitoringConfig) (result : MonitoringResult) : Bool :=
  match config.alertThresholds, result.sslMonitoring.certificate with
  | some th, some cert =>
    numTruthy th.sslExpiryDays && numTruthy cert.daysUntilExpiry
      && decide (cert.daysUntilExpiry ≤ th.sslExpiryDays)
  | _, _ => false

def sslDaysAlertText (result : MonitoringResult) : List String :=
  match result.sslMonitoring.certificate with
  | some cert => ["SSL certificate expires in " ++ toString cert.daysUntilExpiry ++ " days"]
  | none => []

def domainDaysAlertFires (config : MonitoringConfig) (result : MonitoringResult) : Bool :=
  match config.alertThresholds, result.domainExpiration.daysUntilExpiry with
  | some th, some d =>
    numTruthy th.domainExpiryDays && numTruthy d && decide (d ≤ th.domainExpiryDays)
  | _, _ => false

def domainDaysAlertText (result : MonitoringResult) : List String :=
  match result.domainExpiration.daysUntilExpiry with
  | some d => ["Domain expires in " ++ toString d ++ " days"]
  | none => []

def availAlertFires (result : MonitoringResult) : Bool :=
  decide (result.websiteMonitoring.status ≠ WebStatus.online)

def sslExpiredAlertFires (result : MonitoringResult) : Bool :=
  decide (result.sslMonitoring.status = SslStatus.expired)

def domainExpiredAlertFires (result : MonitoringResult) : Bool :=
  decide (result.domainExpiration.status = DomainStatus.expired)

/-! ## Shared concrete material for the claims -/

/-- An environment in which every network-facing oracle fails: each
probe's external call throws or rejects. -/
def baseEnv : ProbeEnv :=
  { now := 0
  , fetchResult := .error "network failure"
  , fetchSpanMs := 0
  , dnsA := .error "resolution failure"
  , dnsMX := .error "resolution failure"
  , dnsTXT := .error "resolution failure"
  , dnsNS := .error "resolution failure"
  , sslCert := .error "SSL connection timeout"
  , pslDomain := some "example.com"
  , rdap := fun _ => .fetchFail "rdap unreachable"
  , whoisExec := fun _ => .error "whois command failed"
  , portOutcome := fun _ => .refused
  , pingOut := .error "ping command failed"
  , keywordFetch := .error "network failure" }

def cfgBasic : MonitoringConfig :=
  { url := "https://example.com"
  , keyword := none
  , schedule := "*/5 * * * *"
  , emailNotifications := none
  , alertThresholds := none }

def cfgBasic2 : MonitoringConfig :=
  { url := "https://other.example.org"
  , keyword := none
  , schedule := "0 * * * *"
  , emailNotifications := none
  , alertThresholds := none }

/-- Environment whose availability fetch completes with HTTP 300. -/
def envC5 : ProbeEnv :=
  { baseEnv with fetchResult := .ok ⟨300, "Multiple Choices", ""⟩, fetchSpanMs := 120 }

/-- Environment whose keyword fetch returns HTTP 200 with body "ab". -/
def envC9 : ProbeEnv := { baseEnv with keywordFetch := .ok ⟨200, "OK", "ab"⟩ }

/-- Environment whose keyword fetch returns HTTP 200 with a body holding
two case-insensitive occurrences of "Hello". -/
def envC9W : ProbeEnv := { baseEnv with keywordFetch := .ok ⟨200, "OK", "hello world HELLO"⟩ }

/-- A report whose certificate expires today (days-to-expiry 0), with a
configured SSL-days threshold of 30. -/
def reportC6 : MonitoringResult :=
  { url := "https://example.com"
  , timestamp := 0
  , websiteMonitoring := ⟨.online, some 200, none⟩
  , responseTime := ⟨150, .good⟩
  , dnsMonitoring := ⟨.resolved, none, none⟩
  , sslMonitoring := ⟨.expired, some ⟨"TestCA", 0, 0, 0⟩, none⟩
  , domainExpiration := ⟨.valid, some 99999999999, some 200, none⟩
  , portMonitoring := []
  , pingMonitoring := ⟨.success, some 12, none⟩
  , keywordMonitoring := none }

def cfgC6 : MonitoringConfig :=
  { url := "https://example.com"
  , keyword := none
  , schedule := "*/5 * * * *"
  , emailNotifications := some ⟨true, ["ops@example.com"]⟩
  , alertThresholds := some ⟨2000, 30, 100⟩ }

/-- A report whose website status is offline, so checkAlerts dispatches. -/
def reportOffline : MonitoringResult :=
  { url := "https://example.com"
  , timestamp := 0
  , websiteMonitoring := ⟨.offline, some 500, none⟩
  , responseTime := ⟨100, .good⟩
  , dnsMonitoring := ⟨.resolved, none, none⟩
  , sslMonitoring := ⟨.valid, none, none⟩
  , domainExpiration := ⟨.valid, none, none, none⟩
  , portMonitoring := []
  , pingMonitoring := ⟨.success, none, none⟩
  , keywordMonitoring := none }

def cfgC7 : MonitoringConfig :=
  { url := "https://example.com"
  , keyword := none
  , schedule := "* * * * *"
  , emailNotifications := some ⟨true, ["ops@example.com"]⟩
  , alertThresholds := none }

def runEnvC7 : RunEnv := ⟨1000, .ok reportOffline⟩

/-- Registry with one scheduled job, no execution started yet. -/
def schedInit : SchedState := ⟨addJob emptyRegistry "job1" cfgC7, [], 0⟩

/-- The registry after registering the same id twice via addJob. -/
def regC8pre : RegistryState := addJob emptyRegistry "job1" cfgBasic

def regC8 : RegistryState := addJob regC8pre "job1" cfgBasic2

def jobC10 : MonitoringJob :=
  { id := "job1", config := cfgBasic, lastRun := some 5, lastResult := none, isActive := true }

/-- The registrable domain the expiry probe queries: the psl result when
available, the last-two-labels fallback otherwise. -/
def domainQueried (u : URLParts) (env : ProbeEnv) : String :=
  match env.pslDomain with
  | some d => d
  | none => lastTwoLabels u.hostname

theorem parseURL_example : parseURL "https://example.com" = some ⟨"example.com", none⟩ := by
  decide

/-- The inline source classification equals the spec's three-band form. -/
theorem ite_classify_eq {α : Type} (v es ex : α) (d : Int) :
    (if 0 < d then (if 30 < d then v else es) else ex)
      = (if 30 < d then v else if 1 ≤ d then es else ex) := by
  split_ifs <;> first | rfl | omega

/-- Defining property of ceilDiv as the integer ceiling of a / 86400000. -/
theorem ceilDiv_day_bounds (a : Int) :
    86400000 * (ceilDiv a 86400000 - 1) < a ∧ a ≤ 86400000 * ceilDiv a 86400000 := by
  have h1 := Int.ediv_add_emod (-a) 86400000
  have h2 : 0 ≤ (-a) % 86400000 := Int.emod_nonneg _ (by norm_num)
  have h3 : (-a) % 86400000 < 86400000 := Int.emod_lt_of_pos _ (by norm_num)
  unfold ceilDiv
  omega

/-- C1: the claim states that a target that does not parse as a URL still
yields a MonitoringReport with probe-local error entries.  In the code,
monitorPorts derives the hostname outside its try/catch, so the whole
monitorWebsite invocation rejects with the URL constructor's TypeError
and no report is produced: evaluated here at the unparseable target
"not a url" in an otherwise arbitrary (all-failing) environment. -/
theorem c1_invalid_url_aborts_run :
    parseURL "not a url" = none
  ∧ monitorWebsite "not a url" none baseEnv = .error "Invalid URL" := by
  decide

/-- C4: the claim states that "2025-07-20T00:00:00.000Z GMT" normalizes
to the instant 2025-07-20T00:00:00Z (epoch ms 1752969600000), like
"20-Jul-2025" does.  The code replaces the trailing " GMT" with "Z",
turning the already-Z-suffixed input into "2025-07-20T00:00:00.000ZZ",
which no parse stage accepts, so the normalizer returns null. -/
theorem c4_gmt_normalization_failure :
    parseDateString "20-Jul-2025" = some 1752969600000
  ∧ stripTrailingGMT (jsTrim "2025-07-20T00:00:00.000Z GMT") = "2025-07-20T00:00:00.000ZZ"
  ∧ parseDateString "2025-07-20T00:00:00.000Z GMT" = none := by
  decide

/-- C7: the claim states that at most one execution per job id is in
flight and that concurrent triggers dispatch at most one notification.
The cron callback has no in-flight guard, so a second tick while the
first execution awaits the aggregator starts a second execution, and
both completions run the alerting step: after two ticks two executions
of job index 0 are in flight, and after both complete the dispatch count
is 2 (duplicate notification). -/
theorem c7_overlap_not_prevented :
    (runTrace schedInit [.tick 0, .tick 0]).inFlight = [0, 0]
  ∧ (runTrace schedInit [.tick 0, .tick 0, .complete 0 runEnvC7, .complete 0 runEnvC7]).dispatchCount = 2 := by
  decide

/-- C5 counterexample: an HTTP 300 response is inside the claim's
"2xx-3xx online" range, but the code reports it offline (node-fetch
response.ok is 2xx only). -/
theorem c5_counterexample_status_300 :
    envC5.fetchResult = .ok ⟨300, "Multiple Choices", ""⟩
  ∧ (monitorWebsiteStatus envC5).1.status = .offline
  ∧ (monitorWebsiteStatus envC5).1.status ≠ .online := by
  decide

/-- C5 (amended): for every completed HTTP response, the reported status
is online exactly when the status code is in the 2xx range (200-299, the
node-fetch ok predicate) and offline otherwise; the status code is
carried in the report and the reported latency value is the measured
wall-clock span of the request. -/
theorem c5_availability_status_2xx (env : ProbeEnv) (resp : FetchResponse)
    (h : env.fetchResult = .ok resp) :
    (monitorWebsiteStatus env).1.status
        = (if 200 ≤ resp.status ∧ resp.status < 300 then .online else .offline)
  ∧ (monitorWebsiteStatus env).1.statusCode = some resp.status
  ∧ (monitorWebsiteStatus env).2.value = env.fetchSpanMs := by
  unfold monitorWebsiteStatus
  rw [h]
  dsimp only
  refine ⟨?_, rfl, rfl⟩
  by_cases hb : 200 ≤ resp.status ∧ resp.status < 300
  · rw [if_pos ?_, if_pos hb]
    unfold respOk
    simp only [Bool.and_eq_true, decide_eq_true_eq]
    exact ⟨hb.1, hb.2⟩
  · rw [if_neg ?_, if_neg hb]
    unfold respOk
    simp only [Bool.and_eq_true, decide_eq_true_eq]
    exact fun hx => hb ⟨hx.1, hx.2⟩

/-- C5 witness: the amended availability theorem at the concrete HTTP
300 environment. -/
theorem c5_witness :
    (monitorWebsiteStatus envC5).1.status
        = (if 200 ≤ 300 ∧ 300 < 300 then .online else .offline)
  ∧ (monitorWebsiteStatus envC5).1.statusCode = some 300
  ∧ (monitorWebsiteStatus envC5).2.value = envC5.fetchSpanMs :=
  c5_availability_status_2xx envC5 ⟨300, "Multiple Choices", ""⟩ rfl

/-- C3: for both the TLS check and the domain-expiration check the
status is a pure function of days-to-expiry, computed as the integer
ceiling of (expiry instant - now) / 1 day: days > 30 is valid, 1..30 is
expiring_soon, and days ≤ 0 is expired — in particular day 30 classifies
as expiring_soon and day 0 as expired.  The last conjunct pins ceilDiv
as the exact integer ceiling. -/
theorem c3_expiry_classification (now validTo ms : Int) (s : String)
    (hs : parseDateString s = some ms) :
    ((monitorSSL "https://example.com"
        { baseEnv with now := now, sslCert := .ok ⟨some "TestCA", 0, validTo⟩ }).status
      = (if 30 < ceilDiv (validTo - now) 86400000 then .valid
         else if 1 ≤ ceilDiv (validTo - now) 86400000 then .expiring_soon
         else .expired))
  ∧ ((monitorSSL "https://example.com"
        { baseEnv with now := now, sslCert := .ok ⟨some "TestCA", 0, validTo⟩ }).certificate
      = some ⟨"TestCA", 0, validTo, ceilDiv (validTo - now) 86400000⟩)
  ∧ ((domainFinish now s).status
      = (if 30 < ceilDiv (ms - now) 86400000 then .valid
         else if 1 ≤ ceilDiv (ms - now) 86400000 then .expiring_soon
         else .expired))
  ∧ ((domainFinish now s).daysUntilExpiry = some (ceilDiv (ms - now) 86400000))
  ∧ (86400000 * (ceilDiv (validTo - now) 86400000 - 1) < validTo - now
      ∧ validTo - now ≤ 86400000 * ceilDiv (validTo - now) 86400000) := by
  refine ⟨?_, ?_, ?_, ?_, ceilDiv_day_bounds _⟩
  · unfold monitorSSL
    rw [parseURL_example]
    exact ite_classify_eq _ _ _ _
  · unfold monitorSSL
    rw [parseURL_example]
    rfl
  · unfold domainFinish
    rw [hs]
    exact ite_classify_eq _ _ _ _
  · unfold domainFinish
    rw [hs]

/-- C3 witness: a certificate expiring in exactly 30 days (classified
expiring_soon) and a domain expiry string denoting the current instant
(0 days, classified expired). -/
theorem c3_witness :
    ((monitorSSL "https://example.com"
        { baseEnv with now := 0, sslCert := .ok ⟨some "TestCA", 0, 2592000000⟩ }).status
      = (if 30 < ceilDiv (2592000000 - 0) 86400000 then .valid
         else if 1 ≤ ceilDiv (2592000000 - 0) 86400000 then .expiring_soon
         else .expired))
  ∧ ((monitorSSL "https://example.com"
        { baseEnv with now := 0, sslCert := .ok ⟨some "TestCA", 0, 2592000000⟩ }).certificate
      = some ⟨"TestCA", 0, 2592000000, ceilDiv (2592000000 - 0) 86400000⟩)
  ∧ ((domainFinish 0 "1970-01-01").status
      = (if 30 < ceilDiv (0 - 0) 86400000 then .valid
         else if 1 ≤ ceilDiv (0 - 0) 86400000 then .expiring_soon
         else .expired))
  ∧ ((domainFinish 0 "1970-01-01").daysUntilExpiry = some (ceilDiv (0 - 0) 86400000))
  ∧ (86400000 * (ceilDiv (2592000000 - 0) 86400000 - 1) < 2592000000 - 0
      ∧ 2592000000 - 0 ≤ 86400000 * ceilDiv (2592000000 - 0) 86400000) :=
  c3_expiry_classification 0 2592000000 0 "1970-01-01" (by decide)

/-- C6 counterexample: with an SSL-days threshold of 30 configured and a
certificate whose days-to-expiry is present and equals 0 (so 0 ≤ 30),
the claim requires an SSL days-to-expiry alert in the list; the code's
truthiness guard skips the rule (0 is falsy), producing only the
SSL-expired alert. -/
theorem c6_counterexample_zero_days :
    reportC6.sslMonitoring.certificate = some ⟨"TestCA", 0, 0, 0⟩
  ∧ cfgC6.alertThresholds = some ⟨2000, 30, 100⟩
  ∧ checkAlertsList cfgC6 reportC6 = ["SSL certificate has expired"]
  ∧ checkAlerts cfgC6 reportC6 = .dispatched ["SSL certificate has expired"]
  ∧ "SSL certificate expires in 0 days" ∉ checkAlertsList cfgC6 reportC6 := by
  decide

/-- C8 counterexample: adding a job under an already-active id neither
fails with a duplicate-job error nor replaces under an explicit policy:
the map entry is silently overwritten, the old job object stays active
and its trigger stays registered, so two live recurring triggers run for
that id afterwards — not exactly one. -/
theorem c8_counterexample_duplicate_addjob :
    assocGet regC8.jobsMap "job1" = some 1
  ∧ regC8.store[0]? = some ⟨"job1", cfgBasic, none, none, true⟩
  ∧ regC8.triggers = [0, 1]
  ∧ liveTriggers regC8 "job1" = 2 := by
  decide

/-- C9 counterexample: the keyword is compiled as a regular expression,
not matched as a literal string: "." occurs zero times literally in the
body "ab", so the claim requires status not_found with count 0, yet the
code counts two regex matches and reports found. -/
theorem c9_counterexample_regex_metachar :
    specOccurrenceCountCI "." "ab" = 0
  ∧ (monitorKeyword "https://example.com" "." envC9).occurrences = some 2
  ∧ (monitorKeyword "https://example.com" "." envC9).status = .found
  ∧ (monitorKeyword "https://example.com" "." envC9).status ≠ .not_found := by
  decide

/-- C10: when the aggregator call throws, runJob leaves the job object
untouched (lastRun and lastResult unchanged), performs no alert
evaluation or notification dispatch, and rethrows the error to its
caller. -/
theorem c10_runjob_failure_leaves_job_unchanged (job : MonitoringJob) (env : RunEnv) (e : String)
    (h : env.monitorOutcome = .error e) :
    runJob job env = (job, .threw e) := by
  unfold runJob
  rw [h]

/-- C10 witness: a failing aggregator call on a concrete job. -/
theorem c10_witness :
    runJob jobC10 ⟨0, .error "network down"⟩ = (jobC10, .threw "network down") :=
  c10_runjob_failure_leaves_job_unchanged jobC10 ⟨0, .error "network down"⟩ "network down" rfl

/-- For a dot-free pattern the regex atom matcher is the literal one. -/
theorem reMatchAt_eq_lit (pat : List Char) (hdot : '.' ∉ pat) (l : List Char) :
    reMatchAt pat l = litMatchAt pat l := by
  induction pat generalizing l with
  | nil => cases l <;> rfl
  | cons p ps ih =>
    cases l with
    | nil => rfl
    | cons c cs =>
      have hp : (p == '.') = false := by
        refine beq_eq_false_iff_ne.mpr ?_
        intro h
        exact hdot (h ▸ List.mem_cons_self p ps)
      have hps : '.' ∉ ps := fun h => hdot (List.mem_cons_of_mem _ h)
      show ((p == '.' || lowEq p c) && reMatchAt ps cs) = (lowEq p c && litMatchAt ps cs)
      rw [hp, Bool.false_or, ih hps]

/-- For a dot-free pattern the regex scan count is the literal count. -/
theorem reCountFrom_eq_lit (pat : List Char) (hdot : '.' ∉ pat) :
    ∀ (l : List Char) (k : Nat), reCountFrom pat l k = litCountFrom pat l k := by
  intro l
  induction l with
  | nil => intro k; rfl
  | cons c cs ih =>
    intro k
    cases k with
    | zero =>
      show (if reMatchAt pat (c :: cs) then 1 + reCountFrom pat cs (pat.length - 1)
            else reCountFrom pat cs 0)
          = (if litMatchAt pat (c :: cs) then 1 + litCountFrom pat cs (pat.length - 1)
            else litCountFrom pat cs 0)
      rw [reMatchAt_eq_lit pat hdot, ih (pat.length - 1), ih 0]
    | succ k2 =>
      show reCountFrom pat cs k2 = litCountFrom pat cs k2
      exact ih k2

/-- C9 (amended): the code counts case-insensitive non-overlapping
matches of the keyword compiled as a regular expression; for keywords
without metacharacters this equals the case-insensitive occurrence count
of the keyword string in the body, and the status is found exactly when
that count is positive and not_found (not error) exactly when it is
zero. -/
theorem c9_keyword_count_literal (url keyword : String) (env : ProbeEnv)
    (resp : FetchResponse) (hf : env.keywordFetch = .ok resp) (hok : respOk resp = true)
    (hdot : '.' ∉ keyword.toList) :
    (monitorKeyword url keyword env).occurrences = some (specOccurrenceCountCI keyword resp.body)
  ∧ ((monitorKeyword url keyword env).status = .found
      ↔ 0 < specOccurrenceCountCI keyword resp.body)
  ∧ ((monitorKeyword url keyword env).status = .not_found
      ↔ specOccurrenceCountCI keyword resp.body = 0) := by
  have hcount : jsRegexCountGI keyword resp.body = specOccurrenceCountCI keyword resp.body := by
    unfold jsRegexCountGI specOccurrenceCountCI
    by_cases he : keyword.isEmpty
    · rw [if_pos he, if_pos he]
    · rw [if_neg he, if_neg he, reCountFrom_eq_lit _ hdot]
  have hnot : (!respOk resp) = false := by rw [hok]; rfl
  unfold monitorKeyword
  rw [hf]
  dsimp only
  simp only [hnot, Bool.false_eq_true, if_false]
  rw [hcount]
  refine ⟨rfl, ?_, ?_⟩
  · by_cases h0 : 0 < specOccurrenceCountCI keyword resp.body
    · simp [h0]
    · simp [h0]
  · by_cases h0 : 0 < specOccurrenceCountCI keyword resp.body
    · simp [h0]
      omega
    · simp [h0]
      omega

/-- C9 witness: the amended keyword theorem at a metacharacter-free
keyword with two case-insensitive occurrences. -/
theorem c9_witness :
    (monitorKeyword "https://example.com" "Hello" envC9W).occurrences
        = some (specOccurrenceCountCI "Hello" "hello world HELLO")
  ∧ ((monitorKeyword "https://example.com" "Hello" envC9W).status = .found
        ↔ 0 < specOccurrenceCountCI "Hello" "hello world HELLO")
  ∧ ((monitorKeyword "https://example.com" "Hello" envC9W).status = .not_found
        ↔ specOccurrenceCountCI "Hello" "hello world HELLO" = 0) :=
  c9_keyword_count_literal "https://example.com" "Hello" envC9W
    ⟨200, "OK", "hello world HELLO"⟩ rfl rfl (by decide)

/-- Map.set followed by lookup of the same key yields the new value. -/
theorem assocGet_assocSet (m : List (String × Nat)) (k : String) (v : Nat) :
    assocGet (assocSet m k v) k = some v := by
  induction m with
  | nil => simp [assocSet, assocGet]
  | cons p ps ih =>
    unfold assocSet
    by_cases hp : (p.1 == k) = true
    · rw [if_pos hp]
      simp [assocGet]
    · rw [if_neg hp]
      have hpf : (p.1 == k) = false := by
        cases h2 : (p.1 == k)
        · rfl
        · exact absurd h2 hp
      unfold assocGet at ih ⊢
      rw [List.find?_cons, hpf]
      exact ih

/-- C8 (amended): calling addJob for an id that is already registered
completes silently (no DuplicateJobError and no explicit replacement
policy): the registry map entry for the id is overwritten with the fresh
job object and a new recurring trigger on the new config's schedule is
added, while the previously registered job object is left untouched —
its trigger stays registered and live, so the id afterwards has one live
recurring trigger more than before (two after a duplicate registration),
not exactly one. -/
theorem c8_addjob_silent_replace (st : RegistryState) (id : String) (config : MonitoringConfig)
    (idx : Nat) (h : assocGet st.jobsMap id = some idx) (hidx : idx < st.store.length)
    (htr : ∀ r ∈ st.triggers, r < st.store.length) :
    assocGet (addJob st id config).jobsMap id = some st.store.length
  ∧ (addJob st id config).store[st.store.length]? = some ⟨id, config, none, none, true⟩
  ∧ (addJob st id config).store[idx]? = st.store[idx]?
  ∧ (addJob st id config).triggers = st.triggers ++ [st.store.length]
  ∧ liveTriggers (addJob st id config) id = liveTriggers st id + 1 := by
  refine ⟨assocGet_assocSet _ _ _, ?_, ?_, rfl, ?_⟩
  · show (st.store ++ [⟨id, config, none, none, true⟩])[st.store.length]? = _
    rw [List.getElem?_concat_length]
  · show (st.store ++ [⟨id, config, none, none, true⟩])[idx]? = st.store[idx]?
    rw [List.getElem?_append, if_pos hidx]
  · unfold liveTriggers addJob
    dsimp only
    rw [List.filter_append, List.length_append]
    have h1 : ∀ r ∈ st.triggers,
        (fun r =>
          match (st.store ++ [(⟨id, config, none, none, true⟩ : MonitoringJob)])[r]? with
          | some j => j.id == id && j.isActive
          | none => false) r
        = (fun r =>
          match st.store[r]? with
          | some j => j.id == id && j.isActive
          | none => false) r := by
      intro r hr
      dsimp only
      rw [List.getElem?_append, if_pos (htr r hr)]
    rw [List.filter_congr h1]
    have h2 : (List.filter (fun r =>
        match (st.store ++ [(⟨id, config, none, none, true⟩ : MonitoringJob)])[r]? with
        | some j => j.id == id && j.isActive
        | none => false) [st.store.length]).length = 1 := by
      rw [List.filter]
      rw [show (match (st.store ++ [(⟨id, config, none, none, true⟩ : MonitoringJob)])[st.store.length]? with
          | some j => j.id == id && j.isActive
          | none => false) = true from by
        rw [List.getElem?_concat_length]
        simp]
      rfl
    rw [h2]

/-- C8 witness: the amended addJob theorem at the concrete registry that
already holds the id "job1". -/
theorem c8_witness :
    assocGet (addJob regC8pre "job1" cfgBasic2).jobsMap "job1" = some regC8pre.store.length
  ∧ (addJob regC8pre "job1" cfgBasic2).store[regC8pre.store.length]?
      = some ⟨"job1", cfgBasic2, none, none, true⟩
  ∧ (addJob regC8pre "job1" cfgBasic2).store[0]? = regC8pre.store[0]?
  ∧ (addJob regC8pre "job1" cfgBasic2).triggers = regC8pre.triggers ++ [regC8pre.store.length]
  ∧ liveTriggers (addJob regC8pre "job1" cfgBasic2) "job1" = liveTriggers regC8pre "job1" + 1 :=
  c8_addjob_silent_replace regC8pre "job1" cfgBasic2 0 (by decide) (by decide) (by decide)

/-- C2: for every parseable target, keyword option and environment —
however many probe oracles fail — the aggregator returns a report, never
a partial one: the report carries its seven unconditional category
entries, one port entry per scanned port, and a keyword entry exactly
when a (JavaScript-truthy) keyword was supplied; categories whose probe
failed hold error-status entries rather than being absent. -/
theorem c2_report_always_complete (url : String) (u : URLParts) (kw : Option String)
    (env : ProbeEnv) (hu : parseURL url = some u) :
    ∃ r, monitorWebsite url kw env = .ok r
      ∧ r.url = url
      ∧ r.timestamp = env.now
      ∧ r.portMonitoring = scanPorts.map (fun p => (p, portEntryOf (env.portOutcome p)))
      ∧ (r.keywordMonitoring.isSome ↔ ∃ k, kw = some k ∧ k ≠ "")
      ∧ (∀ e, env.fetchResult = .error e →
          r.websiteMonitoring.status = .error ∧ r.responseTime.status = .critical)
      ∧ r.dnsMonitoring.status = .resolved
      ∧ (∀ e, env.sslCert = .error e → r.sslMonitoring.status = .error)
      ∧ (∀ e1 e2, env.rdap (domainQueried u env) = .fetchFail e1 →
          env.whoisExec (domainQueried u env) = .error e2 →
          r.domainExpiration.status = .error)
      ∧ (∀ e, env.pingOut = .error e → r.pingMonitoring.status = .error)
      ∧ (∀ k e, kw = some k → k ≠ "" → env.keywordFetch = .error e →
          r.keywordMonitoring = some ⟨.error, none, none, some e⟩) := by
  have hports : monitorPorts url env
      = .ok (scanPorts.map (fun p => (p, portEntryOf (env.portOutcome p)))) := by
    unfold monitorPorts
    rw [hu]
  unfold monitorWebsite
  rw [hports]
  refine ⟨_, rfl, rfl, rfl, rfl, ?_, ?_, ?_, ?_, ?_, ?_, ?_⟩
  · cases kw with
    | none => simp
    | some k =>
      by_cases hk : (k == "") = true
      · have hk2 : k = "" := by simpa using hk
        simp [hk, hk2]
      · have hk2 : ¬ k = "" := by simpa using hk
        simp [hk, hk2]
  · intro e he
    unfold monitorWebsiteStatus
    rw [he]
    exact ⟨rfl, rfl⟩
  · unfold monitorDNS
    rw [hu]
  · intro e he
    unfold monitorSSL
    rw [hu, he]
  · intro e1 e2 h1 h2
    unfold monitorDomainExpiration
    rw [hu]
    dsimp only
    unfold domainQueried at h1 h2
    rw [h1]
    rw [show rdapExpiry (RdapOutcome.fetchFail e1) = none from rfl]
    rw [show optStrTruthy none = false from rfl]
    rw [if_neg (by simp)]
    rw [h2]
  · intro e he
    unfold monitorPing
    rw [hu, he]
  · intro k e hk hke hkf
    rw [hk]
    dsimp only
    have hkb : (k == "") = false := by
      cases h2 : (k == "")
      · rfl
      · exact absurd (by simpa using h2) hke
    rw [hkb]
    rw [if_neg (by simp)]
    unfold monitorKeyword
    rw [hkf]

/-- C2 witness: the completeness theorem at a concrete target and
keyword in the environment where every probe oracle fails. -/
theorem c2_witness :
    ∃ r, monitorWebsite "https://example.com" (some "hello") baseEnv = .ok r
      ∧ r.url = "https://example.com"
      ∧ r.timestamp = baseEnv.now
      ∧ r.portMonitoring = scanPorts.map (fun p => (p, portEntryOf (baseEnv.portOutcome p)))
      ∧ (r.keywordMonitoring.isSome ↔ ∃ k, (some "hello" : Option String) = some k ∧ k ≠ "")
      ∧ (∀ e, baseEnv.fetchResult = .error e →
          r.websiteMonitoring.status = .error ∧ r.responseTime.status = .critical)
      ∧ r.dnsMonitoring.status = .resolved
      ∧ (∀ e, baseEnv.sslCert = .error e → r.sslMonitoring.status = .error)
      ∧ (∀ e1 e2, baseEnv.rdap (domainQueried ⟨"example.com", none⟩ baseEnv) = .fetchFail e1 →
          baseEnv.whoisExec (domainQueried ⟨"example.com", none⟩ baseEnv) = .error e2 →
          r.domainExpiration.status = .error)
      ∧ (∀ e, baseEnv.pingOut = .error e → r.pingMonitoring.status = .error)
      ∧ (∀ k e, (some "hello" : Option String) = some k → k ≠ "" →
          baseEnv.keywordFetch = .error e →
          r.keywordMonitoring = some ⟨.error, none, none, some e⟩) :=
  c2_report_always_complete "https://example.com" ⟨"example.com", none⟩ (some "hello") baseEnv
    (by decide)

/-- C6 (amended): when email notifications are enabled the evaluation
applies the six rules independently with no short-circuit, producing the
ordered concatenation of their alerts; the numeric guards follow
JavaScript truthiness, so the latency rule needs a nonzero configured
max, and the SSL/domain days rules need the days value present, nonzero
and at most the nonzero configured minimum; the availability rule fires
on any status other than online, and the expired-status rules fire even
without a configured threshold; a dispatch happens exactly when email
notifications are enabled and the list is non-empty, and an empty list
yields no alert action. -/
theorem c6_alert_rules (config : MonitoringConfig) (result : MonitoringResult) :
    checkAlertsList config result =
        (if latencyAlertFires config result then latencyAlertText config result else [])
      ++ (if sslDaysAlertFires config result then sslDaysAlertText result else [])
      ++ (if domainDaysAlertFires config result then domainDaysAlertText result else [])
      ++ (if availAlertFires result then
            ["Website is " ++ webStatusText result.websiteMonitoring.status] else [])
      ++ (if sslExpiredAlertFires result then ["SSL certificate has expired"] else [])
      ++ (if domainExpiredAlertFires result then ["Domain has expired"] else [])
  ∧ (latencyAlertFires config result = true ↔
      ∃ th, config.alertThresholds = some th ∧ th.responseTime ≠ 0
        ∧ th.responseTime < (result.responseTime.value : Int))
  ∧ (sslDaysAlertFires config result = true ↔
      ∃ th cert, config.alertThresholds = some th
        ∧ result.sslMonitoring.certificate = some cert
        ∧ th.sslExpiryDays ≠ 0 ∧ cert.daysUntilExpiry ≠ 0
        ∧ cert.daysUntilExpiry ≤ th.sslExpiryDays)
  ∧ (domainDaysAlertFires config result = true ↔
      ∃ th d, config.alertThresholds = some th
        ∧ result.domainExpiration.daysUntilExpiry = some d
        ∧ th.domainExpiryDays ≠ 0 ∧ d ≠ 0 ∧ d ≤ th.domainExpiryDays)
  ∧ (availAlertFires result = true ↔ result.websiteMonitoring.status ≠ .online)
  ∧ (sslExpiredAlertFires result = true ↔ result.sslMonitoring.status = .expired)
  ∧ (domainExpiredAlertFires result = true ↔ result.domainExpiration.status = .expired)
  ∧ (checkAlerts config result = .dispatched (checkAlertsList config result)
      ↔ (∃ en, config.emailNotifications = some en ∧ en.enabled = true)
        ∧ checkAlertsList config result ≠ [])
  ∧ (checkAlertsList config result = [] → checkAlerts config result = .noAction) := by
  refine ⟨?_, ?_, ?_, ?_, ?_, ?_, ?_, ?_, ?_⟩
  · unfold checkAlertsList latencyAlertFires latencyAlertText sslDaysAlertFires sslDaysAlertText
      domainDaysAlertFires domainDaysAlertText availAlertFires sslExpiredAlertFires
      domainExpiredAlertFires
    rcases hth : config.alertThresholds with _ | th <;>
      rcases hcert : result.sslMonitoring.certificate with _ | cert <;>
        rcases hdd : result.domainExpiration.daysUntilExpiry with _ | dd <;>
          simp only [hth, hcert, hdd] <;>
            simp [List.append_assoc, ite_not]
  · unfold latencyAlertFires
    rcases hth : config.alertThresholds with _ | th <;> simp [hth, numTruthy]
  · unfold sslDaysAlertFires
    rcases hth : config.alertThresholds with _ | th <;>
      rcases hcert : result.sslMonitoring.certificate with _ | cert <;>
        simp [hth, hcert, numTruthy, and_assoc]
  · unfold domainDaysAlertFires
    rcases hth : config.alertThresholds with _ | th <;>
      rcases hdd : result.domainExpiration.daysUntilExpiry with _ | dd <;>
        simp [hth, hdd, numTruthy, and_assoc]
  · unfold availAlertFires
    simp
  · unfold sslExpiredAlertFires
    simp
  · unfold domainExpiredAlertFires
    simp
  · unfold checkAlerts
    rcases hen : config.emailNotifications with _ | en
    · simp
    · by_cases hb : en.enabled = true
      · simp only [hb, Bool.not_true, Bool.false_eq_true, if_false]
        by_cases hl : checkAlertsList config result = []
        · simp [hl]
        · have hlen : 0 < (checkAlertsList config result).length :=
            List.length_pos.mpr hl
          simp [hl, hlen, hb]
      · have hb2 : en.enabled = false := by
          cases h2 : en.enabled
          · rfl
          · exact absurd h2 hb
        simp [hb2]
  · intro hnil
    unfold checkAlerts
    rcases hen : config.emailNotifications with _ | en
    · rfl
    · by_cases hb : en.enabled = true
      · simp [hb, hnil]
      · have hb2 : en.enabled = false := by
          cases h2 : en.enabled
          · rfl
          · exact absurd h2 hb
        simp [hb2]

/-- C6 witness: the amended alert-rule theorem at the concrete
configuration and report of the counterexample. -/
theorem c6_witness :
    checkAlertsList cfgC6 reportC6 =
        (if latencyAlertFires cfgC6 reportC6 then latencyAlertText cfgC6 reportC6 else [])
      ++ (if sslDaysAlertFires cfgC6 reportC6 then sslDaysAlertText reportC6 else [])
      ++ (if domainDaysAlertFires cfgC6 reportC6 then domainDaysAlertText reportC6 else [])
      ++ (if availAlertFires reportC6 then
            ["Website is " ++ webStatusText reportC6.websiteMonitoring.status] else [])
      ++ (if sslExpiredAlertFires reportC6 then ["SSL certificate has expired"] else [])
      ++ (if domainExpiredAlertFires reportC6 then ["Domain has expired"] else [])
  ∧ (latencyAlertFires cfgC6 reportC6 = true ↔
      ∃ th, cfgC6.alertThresholds = some th ∧ th.responseTime ≠ 0
        ∧ th.responseTime < (reportC6.responseTime.value : Int))
  ∧ (sslDaysAlertFires cfgC6 reportC6 = true ↔
      ∃ th cert, cfgC6.alertThresholds = some th
        ∧ reportC6.sslMonitoring.certificate = some cert
        ∧ th.sslExpiryDays ≠ 0 ∧ cert.daysUntilExpiry ≠ 0
        ∧ cert.daysUntilExpiry ≤ th.sslExpiryDays)
  ∧ (domainDaysAlertFires cfgC6 reportC6 = true ↔
      ∃ th d, cfgC6.alertThresholds = some th
        ∧ reportC6.domainExpiration.daysUntilExpiry = some d
        ∧ th.domainExpiryDays ≠ 0 ∧ d ≠ 0 ∧ d ≤ th.domainExpiryDays)
  ∧ (availAlertFires reportC6 = true ↔ reportC6.websiteMonitoring.status ≠ .online)
  ∧ (sslExpiredAlertFires reportC6 = true ↔ reportC6.sslMonitoring.status = .expired)
  ∧ (domainExpiredAlertFires reportC6 = true ↔ reportC6.domainExpiration.status = .expired)
  ∧ (checkAlerts cfgC6 reportC6 = .dispatched (checkAlertsList cfgC6 reportC6)
      ↔ (∃ en, cfgC6.emailNotifications = some en ∧ en.enabled = true)
        ∧ checkAlertsList cfgC6 reportC6 ≠ [])
  ∧ (checkAlertsList cfgC6 reportC6 = [] → checkAlerts cfgC6 reportC6 = .noAction) :=
  c6_alert_rules cfgC6 reportC6

end WebMon
